import Mathlib

/-!
Verification development for the Teams-Pod firmware (status-indicator device).

The definitions below are a shallow embedding of the firmware source:

* src/teams_auth.cpp — device-code OAuth flow, token refresh, persistence;
* the main firmware file — application state machine, RUNNING-cycle power
  policy, office-hours helpers, RTC-retained deep-sleep state;
* zoom_presence / teams_presence — presence vocabulary mappers.

Network exchanges are modelled as explicit data (HTTP status code plus the
parse result of the response body), the mutable statics of the C++ source as
explicit state records threaded through the functions, and millis() as an
explicit Nat parameter.
-/

namespace TeamsPod

/-- Parse result of a JSON response body, restricted to the fields the
firmware reads.  A field absent from the payload is `none`; ArduinoJson
renders an absent string field read via as-String as the empty string and
applies the `| default` operator for the integer fields. -/
structure JsonObj where
  access_token : Option String := none
  refresh_token : Option String := none
  expires_in : Option Nat := none
  error : Option String := none
  error_description : Option String := none
  deriving Repr, DecidableEq

/-- One HTTP exchange as seen by the firmware: whether http.begin succeeded,
the status code returned by POST/GET (negative codes are the HTTPClient
connection-level failures), and the parse result of the body
(`none` = deserializeJson failed). -/
structure HttpExchange where
  beginOk : Bool
  httpCode : Int
  parsed : Option JsonObj
  deriving Repr, DecidableEq

/-- In-memory token state of teams_auth.cpp: the statics s_access_token,
s_refresh_token and s_token_expiry (a millis timestamp). -/
structure AuthMem where
  access_token : String
  refresh_token : String
  token_expiry : Nat
  deriving Repr, DecidableEq

/-- Durable token storage: the SD file /refresh_token.txt (readable only when
the card is mounted), and the legacy NVS value under puck_auth/refresh_tok
(readable only when Preferences.begin succeeds). -/
structure Durable where
  sdMounted : Bool
  sdRefreshFile : String
  nvsOk : Bool
  nvsRefresh : String
  deriving Repr, DecidableEq

/-- sdReadText of sd_storage.cpp: empty string when the card is not mounted
or the file cannot be opened (a missing file is subsumed by empty content). -/
def sdReadText (d : Durable) : String :=
  if d.sdMounted then d.sdRefreshFile else ""

/-- saveAuthToNVS of teams_auth.cpp: writes the refresh token to the SD file
only; on SD failure it merely logs a warning (no NVS write). -/
def saveAuthToNVS (mem : AuthMem) (d : Durable) : Durable :=
  if d.sdMounted then { d with sdRefreshFile := mem.refresh_token } else d

/-- Whitespace set of Arduino String trim (the C isspace characters). -/
def isSpaceChar (c : Char) : Bool :=
  c = ' ' ∨ c = '\t' ∨ c = '\n' ∨ c = '\r' ∨ c = '\x0b' ∨ c = '\x0c'

/-- Arduino String trim: drop leading and trailing whitespace. -/
def trimString (s : String) : String :=
  String.mk (((s.data.dropWhile isSpaceChar).reverse.dropWhile
    isSpaceChar).reverse)

/-- loadAuthFromNVS of teams_auth.cpp: prefer the trimmed SD file content;
fall back to the NVS value (empty when Preferences.begin fails). -/
def loadAuthFromNVS (mem : AuthMem) (d : Durable) : AuthMem :=
  let tok := trimString (sdReadText d)
  if tok.length > 0 then { mem with refresh_token := tok }
  else if d.nvsOk then { mem with refresh_token := d.nvsRefresh }
  else { mem with refresh_token := "" }

/-- hasStoredRefreshToken of teams_auth.cpp. -/
def hasStoredRefreshToken (mem : AuthMem) : Bool :=
  ¬ mem.refresh_token = ""

/-- pollForToken of teams_auth.cpp (device-code flow, step 2).  Returns the
C int result code together with the updated token state:
1 = success, 0 = keep waiting, -1 = treated as a poll failure by the caller.
The branches mirror the source: 200 with a parsed body stores the tokens and
returns 1; 200 with an unparseable body returns -1; 400 with a parsed body
returns 0 for authorization_pending / slow_down and -1 otherwise; 400 with an
unparseable body returns 0; every other status code falls through to the
final branch, which returns -1 (despite the adjacent transient-error log
message). -/
def pollForToken (mem : AuthMem) (now : Nat) (x : HttpExchange) :
    Int × AuthMem :=
  if ¬ x.beginOk then (-1, mem)
  else if x.httpCode = 200 then
    match x.parsed with
    | none => (-1, mem)
    | some doc =>
        (1, { access_token := doc.access_token.getD ""
              refresh_token := doc.refresh_token.getD ""
              token_expiry := now + (doc.expires_in.getD 3600) * 1000 })
  else if x.httpCode = 400 then
    match x.parsed with
    | some doc =>
        let err := (doc.error.getD "")
        if err = "authorization_pending" ∨ err = "slow_down" then (0, mem)
        else (-1, mem)
    | none => (0, mem)
  else (-1, mem)

/-- refreshAccessToken of teams_auth.cpp.  Returns the bool result together
with the updated in-memory token state and durable storage.  Mirrors the
source: empty stored refresh token or http.begin failure fail early with no
state change; a non-200 status clears the in-memory refresh token (the
invalidate-to-force-re-auth branch) without touching durable storage; a 200
status with an unparseable body fails with no state change; a parsed 200
body installs the new tokens and persists via saveAuthToNVS. -/
def refreshAccessToken (mem : AuthMem) (d : Durable) (now : Nat)
    (x : HttpExchange) : Bool × AuthMem × Durable :=
  if mem.refresh_token = "" then (false, mem, d)
  else if ¬ x.beginOk then (false, mem, d)
  else if ¬ x.httpCode = 200 then
    (false, { mem with refresh_token := "" }, d)
  else
    match x.parsed with
    | none => (false, mem, d)
    | some doc =>
        let mem1 := { mem with access_token := doc.access_token.getD "" }
        let mem2 :=
          match doc.refresh_token with
          | some r => { mem1 with refresh_token := r }
          | none => mem1
        let mem3 := { mem2 with
                      token_expiry := now + (doc.expires_in.getD 3600) * 1000 }
        (true, mem3, saveAuthToNVS mem3 d)

/-- Application states of the main firmware file. -/
inductive AppState
  | boot
  | setupBLE
  | connectingWifi
  | authDeviceCode
  | running
  | error
  deriving Repr, DecidableEq

/-- MAX_POLL_FAILURES of the main firmware file: allow 5 poll failures. -/
def MAX_POLL_FAILURES : Nat := 5

/-- State carried by the device-code polling loop in STATE_AUTH_DEVICE_CODE:
the application state and the consecutive poll-failure counter
g_pollFailures. -/
structure DeviceAuthSt where
  appState : AppState
  pollFailures : Nat
  deriving Repr, DecidableEq

/-- One poll step of the STATE_AUTH_DEVICE_CODE branch of loop(), applied to
the int result r of pollForToken: r = 1 enters RUNNING; r < 0 increments
g_pollFailures and escalates to ERROR once it reaches MAX_POLL_FAILURES;
otherwise (pending) the failure counter resets to 0. -/
def authPollStep (s : DeviceAuthSt) (r : Int) : DeviceAuthSt :=
  if r = 1 then { s with appState := AppState.running }
  else if r < 0 then
    let f := s.pollFailures + 1
    if f ≥ MAX_POLL_FAILURES then { appState := AppState.error, pollFailures := f }
    else { s with pollFailures := f }
  else { s with pollFailures := 0 }

/-- Iterate the device-code polling loop over a list of HTTP exchanges,
feeding each pollForToken result code into authPollStep (token state
threaded through as in the source). -/
def authPollRun (s : DeviceAuthSt) (mem : AuthMem) (now : Nat) :
    List HttpExchange → DeviceAuthSt × AuthMem
  | [] => (s, mem)
  | x :: xs =>
      let (r, mem1) := pollForToken mem now x
      authPollRun (authPollStep s r) mem1 now xs

/-- Broken-down local time as used by the firmware (struct tm fields it
reads): tm_wday with 0 = Sunday .. 6 = Saturday, hour, minute, second. -/
structure Tm where
  tm_wday : Nat
  tm_hour : Nat
  tm_min : Nat
  tm_sec : Nat
  deriving Repr, DecidableEq

/-- PodSettings fields the core state machine reads (settings.h variant with
the office-hours schedule).  officeDays is the Mon..Fri bitmask with
bit 0 = Monday .. bit 6 = Sunday. -/
structure PodSettings where
  presenceInterval : Nat := 120
  officeHoursEnabled : Bool := false
  officeStartHour : Nat := 8
  officeStartMin : Nat := 0
  officeEndHour : Nat := 17
  officeEndMin : Nat := 0
  officeDays : Nat := 0x1F
  deriving Repr, DecidableEq

/-- isOfficeHours of the main firmware file.  The time argument is `none`
when getLocalTime fails (treated as inside office hours, as in the source). -/
def isOfficeHours (g : PodSettings) (t? : Option Tm) : Bool :=
  if ¬ g.officeHoursEnabled then true
  else
    match t? with
    | none => true
    | some t =>
        let dayBit := if t.tm_wday = 0 then 6 else t.tm_wday - 1
        if g.officeDays &&& (1 <<< dayBit) = 0 then false
        else
          let nowMin := t.tm_hour * 60 + t.tm_min
          let startMin := g.officeStartHour * 60 + g.officeStartMin
          let endMin := g.officeEndHour * 60 + g.officeEndMin
          decide (nowMin ≥ startMin ∧ nowMin < endMin)

/-- One candidate day of the secondsUntilOfficeStart scan: for a look-ahead
of `ahead` days, `none` when that day is not an office day or the start time
today is already past; otherwise the seconds until the window start on that
day (C int arithmetic, hence Int). -/
def officeCandidate (g : PodSettings) (t : Tm) (ahead : Nat) : Option Int :=
  let wday := (t.tm_wday + ahead) % 7
  let dayBit := if wday = 0 then 6 else wday - 1
  if g.officeDays &&& (1 <<< dayBit) = 0 then none
  else
    let startMin : Int := g.officeStartHour * 60 + g.officeStartMin
    let nowMin : Int := if ahead = 0 then t.tm_hour * 60 + t.tm_min else 0
    if ahead = 0 ∧ nowMin ≥ startMin then none
    else some ((ahead : Int) * 86400 + (startMin - nowMin) * 60 - t.tm_sec)

/-- secondsUntilOfficeStart of the main firmware file: scan ahead 0..7 days
for the next enabled office day whose start is still in the future; fall back
to 3600 when getLocalTime fails or no day matches. -/
def secondsUntilOfficeStart (g : PodSettings) (t? : Option Tm) : Int :=
  match t? with
  | none => 3600
  | some t => ((List.range 8).findSome? (officeCandidate g t)).getD 3600

/-- DEEP_SLEEP_THRESHOLD of the main firmware file: unchanged polls before
deep sleep. -/
def DEEP_SLEEP_THRESHOLD : Nat := 3

/-- BATTERY_SHUTDOWN_PCT of the main firmware file. -/
def BATTERY_SHUTDOWN_PCT : Nat := 5

/-- Live state the RUNNING cycle reads and writes: g_lastAvailability, plus
the RTC-retained statics rtc_stableCount (a uint8_t), rtc_deepSleepActive and
rtc_lastAvailability (a 32-byte buffer, so at most 31 characters survive the
strncpy). -/
structure RunState where
  lastAvailability : String
  stableCount : Nat
  deepSleepActive : Bool
  retainedAvail : String
  deriving Repr, DecidableEq

/-- What the device does at the end of one STATE_RUNNING iteration of
loop(): stay at full power on USB (delay 100), stay awake to retry after a
WiFi failure, light-sleep until the next poll, deep-sleep for the given
number of seconds, shut down on critical battery, or fall into STATE_ERROR. -/
inductive PowerAction
  | idleAwake
  | stayAwake
  | lightSleep
  | deepSleep (seconds : Int)
  | shutdown
  | error
  deriving Repr, DecidableEq

/-- Environment of one STATE_RUNNING iteration: USB power detection, whether
the poll timer fired, whether WiFi is (re)connectable, local time (`none`
when getLocalTime fails), whether a usable access token is available (either
already valid or obtained by the refresh the cycle performs — when false,
updateAndDisplayPresence escalates to STATE_ERROR), the presence fetch
outcome (`none` = getPresence failed), and the battery percentage read by
checkBattery. -/
structure CycleInput where
  onUSB : Bool
  needPoll : Bool
  wifiOk : Bool
  time : Option Tm
  tokenOk : Bool
  fetch : Option String
  batteryPct : Nat
  deriving Repr, DecidableEq

/-- The display/notify branch of updateAndDisplayPresence: `none` when the
token is unusable and refresh fails (the drawErrorScreen / STATE_ERROR
path); otherwise the new g_lastAvailability together with the list of
render-plus-notify events (each event is one drawStatusScreen plus
lightSetPresence pair, recorded by the availability value it displayed).
A failed fetch or an unchanged availability issues no event. -/
def updateAndDisplayPresence (tokenOk : Bool) (last : String)
    (fetch : Option String) : Option (String × List String) :=
  if ¬ tokenOk then none
  else
    match fetch with
    | none => some (last, [])
    | some avail =>
        if ¬ avail = last then some (avail, [avail])
        else some (last, [])

/-- The strncpy into the 32-byte rtc_lastAvailability buffer: at most 31
units survive (modelled on characters; identical to the byte count for the
ASCII availability vocabulary). -/
def truncate31 (s : String) : String :=
  String.mk (s.data.take 31)

/-- The power-management tail of the STATE_RUNNING branch: USB idles at full
power; on battery, a stable count at DEEP_SLEEP_THRESHOLD or above commits
the retained state (rtc_lastAvailability truncated to 31 characters,
rtc_deepSleepActive set) and deep-sleeps for the poll interval; otherwise
light sleep until the next poll. -/
def powerManage (g : PodSettings) (s : RunState) (onUSB : Bool) :
    RunState × PowerAction :=
  if onUSB then (s, PowerAction.idleAwake)
  else if s.stableCount ≥ DEEP_SLEEP_THRESHOLD then
    ({ s with retainedAvail := truncate31 s.lastAvailability
              deepSleepActive := true },
     PowerAction.deepSleep (g.presenceInterval : Int))
  else (s, PowerAction.lightSleep)

/-- One STATE_RUNNING iteration of loop() with no button pressed, returning
the updated state, the power action taken, and the render-plus-notify events
issued.  Mirrors the source order: reset rtc_stableCount while on USB; if
the poll timer fired, check office hours (battery only) and deep-sleep until
the window start clamped to a minimum of 60 s; reconnect WiFi (failure stays
awake and retries next cycle); run updateAndDisplayPresence; on battery,
increment the stable counter (uint8_t, hence mod 256) when the accepted
availability is unchanged and non-empty, else reset it, then run
checkBattery (shutdown at or below the critical percentage); finally the
power-management tail. -/
def runningCycle (g : PodSettings) (s0 : RunState) (i : CycleInput) :
    RunState × PowerAction × List String :=
  let s := if i.onUSB then { s0 with stableCount := 0 } else s0
  if i.needPoll then
    if ¬ i.onUSB ∧ ¬ isOfficeHours g i.time then
      let sleepSec0 := secondsUntilOfficeStart g i.time
      let sleepSec := if sleepSec0 < 60 then 60 else sleepSec0
      ({ s with retainedAvail := truncate31 s.lastAvailability
                deepSleepActive := true },
       PowerAction.deepSleep sleepSec, [])
    else if ¬ i.wifiOk then (s, PowerAction.stayAwake, [])
    else
      match updateAndDisplayPresence i.tokenOk s.lastAvailability i.fetch with
      | none => (s, PowerAction.error, [])
      | some (newAvail, events) =>
          let s1 := { s with lastAvailability := newAvail }
          let s2 :=
            if ¬ i.onUSB then
              if newAvail = s.lastAvailability ∧ ¬ s.lastAvailability = "" then
                { s1 with stableCount := (s1.stableCount + 1) % 256 }
              else { s1 with stableCount := 0 }
            else s1
          if ¬ i.onUSB ∧ i.batteryPct ≤ BATTERY_SHUTDOWN_PCT then
            (s2, PowerAction.shutdown, events)
          else
            let (s3, act) := powerManage g s2 i.onUSB
            (s3, act, events)
  else
    let (s3, act) := powerManage g s i.onUSB
    (s3, act, [])

/-- Iterate runningCycle over a list of per-cycle environments, recording the
action of each cycle (most recent last). -/
def runCycles (g : PodSettings) (s : RunState) :
    List CycleInput → RunState × List PowerAction
  | [] => (s, [])
  | i :: is =>
      let (s1, act, _) := runningCycle g s i
      let (s2, acts) := runCycles g s1 is
      (s2, act :: acts)

/-- The RTC-retained triple of the main firmware file: rtc_deepSleepActive,
rtc_stableCount (uint8_t) and rtc_lastAvailability (at most 31 characters). -/
structure RetainedState where
  deepSleepActive : Bool
  stableCount : Nat
  lastAvailability : String
  deriving Repr, DecidableEq

/-- Zero-value default of the retained region: the static initializers of
the RTC_DATA_ATTR variables (false, 0, empty string). -/
def retainedZero : RetainedState :=
  { deepSleepActive := false, stableCount := 0, lastAvailability := "" }

/-- Wake origins the boot path distinguishes via esp_reset_reason. -/
inductive ResetReason
  | powerOn
  | deepSleepWake
  | other
  deriving Repr, DecidableEq

/-- Modelled from the spec: the ESP32 RTC_DATA_ATTR retention semantics are
platform behaviour, not code in this repository.  Retained memory survives a
deep-sleep cycle unchanged, while a cold boot (power applied from zero)
reinstates the zero-value static initializers; any other reset of a powered
board also preserves the region, which the claims here do not depend on. -/
def retainedAfterWake : ResetReason → RetainedState → RetainedState
  | ResetReason.powerOn, _ => retainedZero
  | ResetReason.deepSleepWake, r => r
  | ResetReason.other, r => r

/-- The guard at the top of setup() that selects the deep-sleep fast path:
it is entered only when the reset reason is ESP_RST_DEEPSLEEP and the
retained rtc_deepSleepActive flag is set; every other boot takes the normal
path and never consumes the retained values. -/
def deepSleepFastPath (reason : ResetReason) (r : RetainedState) : Bool :=
  reason = ResetReason.deepSleepWake ∧ r.deepSleepActive

/-- mapZoomStatus of zoom_presence.cpp: map the Zoom presence_status
vocabulary onto the Teams-compatible availability strings, with the explicit
sentinel PresenceUnknown for every unrecognized upstream value. -/
def mapZoomStatus (status : String) : String :=
  if status = "Available" then "Available"
  else if status = "Away" then "Away"
  else if status = "Do_Not_Disturb" then "DoNotDisturb"
  else if status = "Busy" then "Busy"
  else if status = "In_A_Zoom_Meeting" then "Busy"
  else if status = "On_A_Call" then "Busy"
  else if status = "Presenting" then "Busy"
  else if status = "In_Calendar_Event" then "Busy"
  else if status = "Out_of_Office" then "Away"
  else if status = "Offline" then "Offline"
  else "PresenceUnknown"

/-- availabilityLabel of teams_presence.cpp: map an availability string onto
its display label, with the explicit Unknown fallback for every unrecognized
value. -/
def availabilityLabel (a : String) : String :=
  if a = "Available" then "Available"
  else if a = "Busy" then "Busy"
  else if a = "DoNotDisturb" then "Do Not Disturb"
  else if a = "Away" then "Away"
  else if a = "BeRightBack" then "Be Right Back"
  else if a = "Offline" then "Offline"
  else "Unknown"

/-- The canonical display vocabulary of the spec: the six availability labels
plus Unknown. -/
def canonicalLabels : List String :=
  ["Available", "Busy", "Do Not Disturb", "Away", "Be Right Back",
   "Offline", "Unknown"]

/-- The set of availability strings mapZoomStatus can emit. -/
def zoomMapOutputs : List String :=
  ["Available", "Away", "DoNotDisturb", "Busy", "Offline", "PresenceUnknown"]

/-- The Zoom upstream values mapZoomStatus recognizes. -/
def zoomKnownStatuses : List String :=
  ["Available", "Away", "Do_Not_Disturb", "Busy", "In_A_Zoom_Meeting",
   "On_A_Call", "Presenting", "In_Calendar_Event", "Out_of_Office", "Offline"]

/-- The availability strings availabilityLabel recognizes. -/
def knownAvailabilities : List String :=
  ["Available", "Busy", "DoNotDisturb", "Away", "BeRightBack", "Offline"]

/-- An HTTP exchange representing the documented pending poll responses: a
parsed 400 body whose error field is authorization_pending or slow_down. -/
def isPending (x : HttpExchange) : Bool :=
  x.beginOk && decide (x.httpCode = 400) &&
    (match x.parsed with
     | some doc =>
         decide (doc.error.getD "" = "authorization_pending") ||
         decide (doc.error.getD "" = "slow_down")
     | none => false)

lemma pollForToken_pending (mem : AuthMem) (now : Nat) (x : HttpExchange)
    (h : isPending x = true) : pollForToken mem now x = (0, mem) := by
  obtain ⟨xb, xc, xp⟩ := x
  simp only [isPending, Bool.and_eq_true, decide_eq_true_eq] at h
  obtain ⟨⟨hb, hc⟩, hp⟩ := h
  subst hb hc
  match xp, hp with
  | some doc, hp =>
      simp only [Bool.or_eq_true, decide_eq_true_eq] at hp
      rcases hp with hp | hp <;> simp [pollForToken, hp]

lemma authPollStep_pending (s : DeviceAuthSt) :
    authPollStep s 0 = { s with pollFailures := 0 } := by
  simp [authPollStep]

/-- C1.  The claim states that a poll response that is not a successfully
parsed explicit rejection — in particular an unexpected HTTP status such as
a 5xx — is retryable and does not count toward the bounded
consecutive-fatal-failure budget.  The code disagrees: the final branch of
pollForToken returns -1 for every unexpected status (despite its
treating-as-transient log message), the caller counts every -1 toward
MAX_POLL_FAILURES, and five consecutive HTTP 503 responses therefore drive
the state machine to ERROR. -/
theorem unexpected_http_counts_toward_fatal_budget :
    (pollForToken { access_token := "", refresh_token := "", token_expiry := 0 }
        0 { beginOk := true, httpCode := 503, parsed := none }).1 = -1
    ∧ (authPollRun { appState := AppState.authDeviceCode, pollFailures := 0 }
        { access_token := "", refresh_token := "", token_expiry := 0 } 0
        (List.replicate 5
          { beginOk := true, httpCode := 503, parsed := none })).1.appState
      = AppState.error := by
  constructor <;> decide

/-- C7.  During device-code polling, a parsed 400 response whose error is
authorization_pending or slow_down never counts toward the fatal-failure
escalation: over any run of consecutive pending responses the application
state is unchanged (in particular it never becomes ERROR) and the failure
counter ends at zero. -/
theorem pending_responses_never_escalate
    (mem : AuthMem) (now : Nat) (s : DeviceAuthSt) (xs : List HttpExchange)
    (h : ∀ x ∈ xs, isPending x = true) :
    (authPollRun s mem now xs).1.appState = s.appState
    ∧ (¬ xs = [] → (authPollRun s mem now xs).1.pollFailures = 0) := by
  induction xs generalizing s with
  | nil => exact ⟨rfl, fun hne => absurd rfl hne⟩
  | cons x xs ih =>
      have hx : isPending x = true := h x (List.mem_cons_self x xs)
      have hxs : ∀ y ∈ xs, isPending y = true :=
        fun y hy => h y (List.mem_cons_of_mem x hy)
      have hrun : authPollRun s mem now (x :: xs)
          = authPollRun { s with pollFailures := 0 } mem now xs := by
        simp [authPollRun, pollForToken_pending mem now x hx, authPollStep_pending]
      rcases xs with _ | ⟨y, ys⟩
      · refine ⟨?_, fun _ => ?_⟩ <;> rw [hrun] <;> rfl
      · have ihh := ih { s with pollFailures := 0 } hxs
        exact ⟨by rw [hrun]; exact ihh.1,
               fun _ => by rw [hrun]; exact ihh.2 (by simp)⟩

/-- C7 witness: ten consecutive authorization_pending responses leave the
device-code state machine in AUTH_DEVICE_CODE with a zero failure counter. -/
theorem pending_responses_never_escalate_witness :
    (authPollRun { appState := AppState.authDeviceCode, pollFailures := 0 }
        { access_token := "", refresh_token := "", token_expiry := 0 } 0
        (List.replicate 10
          { beginOk := true, httpCode := 400,
            parsed := some { error := some "authorization_pending" } })).1.appState
      = AppState.authDeviceCode
    ∧ (authPollRun { appState := AppState.authDeviceCode, pollFailures := 0 }
        { access_token := "", refresh_token := "", token_expiry := 0 } 0
        (List.replicate 10
          { beginOk := true, httpCode := 400,
            parsed := some { error := some "authorization_pending" } })).1.pollFailures
      = 0 := by
  have h := pending_responses_never_escalate
    { access_token := "", refresh_token := "", token_expiry := 0 } 0
    { appState := AppState.authDeviceCode, pollFailures := 0 }
    (List.replicate 10
      { beginOk := true, httpCode := 400,
        parsed := some { error := some "authorization_pending" } })
    (by decide)
  exact ⟨h.1, h.2 (by decide)⟩

/-- C2 counterexample.  The claim states that a malformed (unparseable)
response body to a refresh POST also invalidates the stored refresh token.
It does not: a 200 response whose body fails to parse returns false without
touching s_refresh_token, so hasStoredRefreshToken is still true
afterward. -/
theorem refresh_malformed_body_keeps_stored_token :
    hasStoredRefreshToken
      (refreshAccessToken
        { access_token := "atk", refresh_token := "rtk", token_expiry := 0 }
        { sdMounted := true, sdRefreshFile := "rtk", nvsOk := true,
          nvsRefresh := "" }
        0 { beginOk := true, httpCode := 200, parsed := none }).2.1 = true := by
  decide

/-- C2 amended.  A refresh POST that receives a non-200 HTTP response
invalidates the stored refresh token (hasStoredRefreshToken is false
afterward, forcing the next authentication attempt through the device-code
flow); a 200 response with a malformed body, however, fails while leaving
the stored refresh token unchanged. -/
theorem refresh_non200_invalidates_stored_token
    (mem : AuthMem) (d : Durable) (now : Nat) (x : HttpExchange)
    (hb : x.beginOk = true) :
    (¬ x.httpCode = 200 →
      hasStoredRefreshToken (refreshAccessToken mem d now x).2.1 = false)
    ∧ (x.httpCode = 200 → x.parsed = none →
      (refreshAccessToken mem d now x).2.1.refresh_token
        = mem.refresh_token) := by
  constructor
  · intro hc
    by_cases hr : mem.refresh_token = "" <;>
      simp [refreshAccessToken, hasStoredRefreshToken, hr, hb, hc]
  · intro hc hp
    by_cases hr : mem.refresh_token = "" <;>
      simp [refreshAccessToken, hr, hb, hc, hp]

/-- C2 witness: a concrete 400 response to a refresh POST leaves
hasStoredRefreshToken false. -/
theorem refresh_non200_invalidates_stored_token_witness :
    hasStoredRefreshToken
      (refreshAccessToken
        { access_token := "atk", refresh_token := "rtk", token_expiry := 0 }
        { sdMounted := true, sdRefreshFile := "rtk", nvsOk := true,
          nvsRefresh := "" }
        0 { beginOk := true, httpCode := 400,
            parsed := some { error := some "invalid_grant" } }).2.1 = false :=
  (refresh_non200_invalidates_stored_token
    { access_token := "atk", refresh_token := "rtk", token_expiry := 0 }
    { sdMounted := true, sdRefreshFile := "rtk", nvsOk := true,
      nvsRefresh := "" }
    0 { beginOk := true, httpCode := 400,
        parsed := some { error := some "invalid_grant" } }
    rfl).1 (by decide)

/-- C10.  A refresh that receives a non-200 response clears only the
in-memory refresh token: the call fails, durable storage (SD file and NVS)
is unchanged, and when the durable SD copy holds the same (now rejected)
refresh token, loadAuthFromNVS after a restart restores exactly that token
for another attempt. -/
theorem refresh_failure_preserves_durable_store
    (mem : AuthMem) (d : Durable) (now : Nat) (x : HttpExchange)
    (hb : x.beginOk = true) (hc : ¬ x.httpCode = 200)
    (hr : ¬ mem.refresh_token = "") :
    (refreshAccessToken mem d now x).1 = false
    ∧ (refreshAccessToken mem d now x).2.2 = d
    ∧ (refreshAccessToken mem d now x).2.1.refresh_token = ""
    ∧ (trimString (sdReadText d) = mem.refresh_token →
        (loadAuthFromNVS (refreshAccessToken mem d now x).2.1
          (refreshAccessToken mem d now x).2.2).refresh_token
          = mem.refresh_token) := by
  have hout : refreshAccessToken mem d now x
      = (false, { mem with refresh_token := "" }, d) := by
    simp [refreshAccessToken, hr, hb, hc]
  refine ⟨by rw [hout], by rw [hout], by rw [hout], fun hsd => ?_⟩
  rw [hout]
  have hlen : 0 < mem.refresh_token.length := by
    cases hmem : mem.refresh_token with
    | mk data =>
        cases data with
        | nil => exact absurd hmem hr
        | cons c cs => simp [String.length]
  simp [loadAuthFromNVS, hsd, hlen]

/-- C10 witness: a concrete 400 refresh failure with the token persisted on
SD leaves the durable store untouched and a subsequent loadAuthFromNVS
restores the rejected token. -/
theorem refresh_failure_preserves_durable_store_witness :
    (refreshAccessToken
        { access_token := "atk", refresh_token := "rtk", token_expiry := 7 }
        { sdMounted := true, sdRefreshFile := "rtk", nvsOk := true,
          nvsRefresh := "" }
        3 { beginOk := true, httpCode := 400,
            parsed := some { error := some "invalid_grant" } }).2.2
      = { sdMounted := true, sdRefreshFile := "rtk", nvsOk := true,
          nvsRefresh := "" }
    ∧ (loadAuthFromNVS
        (refreshAccessToken
          { access_token := "atk", refresh_token := "rtk", token_expiry := 7 }
          { sdMounted := true, sdRefreshFile := "rtk", nvsOk := true,
            nvsRefresh := "" }
          3 { beginOk := true, httpCode := 400,
              parsed := some { error := some "invalid_grant" } }).2.1
        (refreshAccessToken
          { access_token := "atk", refresh_token := "rtk", token_expiry := 7 }
          { sdMounted := true, sdRefreshFile := "rtk", nvsOk := true,
            nvsRefresh := "" }
          3 { beginOk := true, httpCode := 400,
              parsed := some { error := some "invalid_grant" } }).2.2).refresh_token
      = "rtk" := by
  have h := refresh_failure_preserves_durable_store
    { access_token := "atk", refresh_token := "rtk", token_expiry := 7 }
    { sdMounted := true, sdRefreshFile := "rtk", nvsOk := true,
      nvsRefresh := "" }
    3 { beginOk := true, httpCode := 400,
        parsed := some { error := some "invalid_grant" } }
    rfl (by decide) (by decide)
  exact ⟨h.2.1, h.2.2.2 (by decide)⟩

/-- C9.  The presence vocabulary mappings are pure total functions: every
input string maps to a member of the mapper's defined finite output set, the
composed Zoom-to-label pipeline always lands in the canonical vocabulary,
and every unrecognized upstream value takes the explicit unknown fallback
(PresenceUnknown for the Zoom mapper, Unknown for the availability
labeller). -/
theorem presence_mappers_total_with_unknown_fallback :
    (∀ s, mapZoomStatus s ∈ zoomMapOutputs)
    ∧ (∀ s, availabilityLabel s ∈ canonicalLabels)
    ∧ (∀ s, availabilityLabel (mapZoomStatus s) ∈ canonicalLabels)
    ∧ (∀ s, ¬ s ∈ zoomKnownStatuses → mapZoomStatus s = "PresenceUnknown")
    ∧ (∀ s, ¬ s ∈ knownAvailabilities → availabilityLabel s = "Unknown") := by
  have hz : ∀ s, mapZoomStatus s ∈ zoomMapOutputs := by
    intro s
    unfold mapZoomStatus
    repeat' split
    all_goals decide
  have hl : ∀ s, availabilityLabel s ∈ canonicalLabels := by
    intro s
    unfold availabilityLabel
    repeat' split
    all_goals decide
  refine ⟨hz, hl, fun s => hl (mapZoomStatus s), fun s hs => ?_, fun s hs => ?_⟩
  · simp only [zoomKnownStatuses, List.mem_cons, List.not_mem_nil, or_false,
      not_or] at hs
    obtain ⟨h1, h2, h3, h4, h5, h6, h7, h8, h9, h10⟩ := hs
    simp [mapZoomStatus, h1, h2, h3, h4, h5, h6, h7, h8, h9, h10]
  · simp only [knownAvailabilities, List.mem_cons, List.not_mem_nil, or_false,
      not_or] at hs
    obtain ⟨h1, h2, h3, h4, h5, h6⟩ := hs
    simp [availabilityLabel, h1, h2, h3, h4, h5, h6]

/-- C9 witness: a concrete unrecognized upstream value is outside the known
vocabularies and takes the unknown fallback in both mappers, and the
composed pipeline renders it as the canonical Unknown label. -/
theorem presence_mappers_total_with_unknown_fallback_witness :
    (¬ "Gibberish" ∈ zoomKnownStatuses)
    ∧ mapZoomStatus "Gibberish" = "PresenceUnknown"
    ∧ availabilityLabel "PresenceUnknown" = "Unknown"
    ∧ availabilityLabel (mapZoomStatus "Gibberish") ∈ canonicalLabels :=
  ⟨by decide,
   presence_mappers_total_with_unknown_fallback.2.2.2.1 "Gibberish" (by decide),
   presence_mappers_total_with_unknown_fallback.2.2.2.2 "PresenceUnknown"
     (by decide),
   presence_mappers_total_with_unknown_fallback.2.2.1 "Gibberish"⟩

/-- C5.  Retained-state round trip and cold-boot zeroing: the triple written
before deep sleep (deepSleepArmed, stableCycles = 2, lastAvailability Busy)
is read back identically on a deep-sleep timer wake; a power-on (cold) boot
yields the zero-value defaults regardless of what was previously written,
and the boot path guard that consumes retained state is never taken on a
cold boot. -/
theorem retained_state_roundtrip_and_cold_boot_zeroing :
    retainedAfterWake ResetReason.deepSleepWake
        { deepSleepActive := true, stableCount := 2, lastAvailability := "Busy" }
      = { deepSleepActive := true, stableCount := 2, lastAvailability := "Busy" }
    ∧ (∀ w, retainedAfterWake ResetReason.powerOn w = retainedZero)
    ∧ (∀ w, deepSleepFastPath ResetReason.powerOn w = false)
    ∧ deepSleepFastPath ResetReason.deepSleepWake
        { deepSleepActive := true, stableCount := 2, lastAvailability := "Busy" }
      = true := by
  refine ⟨rfl, fun w => rfl, fun w => ?_, by decide⟩
  simp [deepSleepFastPath]

lemma powerManage_battery_keeps_core (g : PodSettings) (s : RunState) :
    (powerManage g s false).1.stableCount = s.stableCount
    ∧ (powerManage g s false).1.lastAvailability = s.lastAvailability := by
  unfold powerManage
  split
  · simp_all
  · split <;> simp

lemma runningCycle_battery_unchanged (g : PodSettings) (s : RunState)
    (t : Option Tm) (pct : Nat) (avail : String)
    (hoff : isOfficeHours g t = true) (hpct : BATTERY_SHUTDOWN_PCT < pct)
    (hs : s.lastAvailability = avail) (ha : ¬ avail = "") :
    runningCycle g s
        { onUSB := false, needPoll := true, wifiOk := true, time := t,
          tokenOk := true, fetch := some avail, batteryPct := pct }
      = ((powerManage g { s with stableCount := (s.stableCount + 1) % 256 }
           false).1,
         (powerManage g { s with stableCount := (s.stableCount + 1) % 256 }
           false).2, []) := by
  subst hs
  simp [runningCycle, updateAndDisplayPresence, hoff, ha, Nat.not_le.mpr hpct]

lemma runningCycle_battery_changed (g : PodSettings) (s : RunState)
    (t : Option Tm) (pct : Nat) (b : String)
    (hoff : isOfficeHours g t = true) (hpct : BATTERY_SHUTDOWN_PCT < pct)
    (hb : ¬ b = s.lastAvailability) :
    runningCycle g s
        { onUSB := false, needPoll := true, wifiOk := true, time := t,
          tokenOk := true, fetch := some b, batteryPct := pct }
      = ({ s with lastAvailability := b, stableCount := 0 },
         PowerAction.lightSleep, [b]) := by
  simp [runningCycle, updateAndDisplayPresence, powerManage, hoff, hb,
    Nat.not_le.mpr hpct, DEEP_SLEEP_THRESHOLD]

/-- C4.  One scheduled on-battery poll cycle with a non-empty previously
accepted availability: if the fetched availability equals the previous one,
the stable counter increases by exactly 1 and no render-plus-notify event is
issued; if it differs, the counter resets to 0 and exactly one
render-plus-notify event with the new value is issued. -/
theorem battery_poll_stable_increment_and_change_reset
    (g : PodSettings) (s : RunState) (t : Option Tm) (pct : Nat) (b : String)
    (hoff : isOfficeHours g t = true) (hpct : BATTERY_SHUTDOWN_PCT < pct)
    (ha : ¬ s.lastAvailability = "") (hcap : s.stableCount < 255) :
    ((runningCycle g s
        { onUSB := false, needPoll := true, wifiOk := true, time := t,
          tokenOk := true, fetch := some s.lastAvailability,
          batteryPct := pct }).1.stableCount = s.stableCount + 1
      ∧ (runningCycle g s
          { onUSB := false, needPoll := true, wifiOk := true, time := t,
            tokenOk := true, fetch := some s.lastAvailability,
            batteryPct := pct }).1.lastAvailability = s.lastAvailability
      ∧ (runningCycle g s
          { onUSB := false, needPoll := true, wifiOk := true, time := t,
            tokenOk := true, fetch := some s.lastAvailability,
            batteryPct := pct }).2.2 = [])
    ∧ (¬ b = s.lastAvailability →
        runningCycle g s
            { onUSB := false, needPoll := true, wifiOk := true, time := t,
              tokenOk := true, fetch := some b, batteryPct := pct }
          = ({ s with lastAvailability := b, stableCount := 0 },
             PowerAction.lightSleep, [b])) := by
  have hmod : (s.stableCount + 1) % 256 = s.stableCount + 1 :=
    Nat.mod_eq_of_lt (by omega)
  have hu := runningCycle_battery_unchanged g s t pct s.lastAvailability hoff
    hpct rfl ha
  have hk := powerManage_battery_keeps_core g
    { s with stableCount := (s.stableCount + 1) % 256 }
  refine ⟨⟨?_, ?_, ?_⟩,
    fun hb => runningCycle_battery_changed g s t pct b hoff hpct hb⟩
  · rw [hu]; simpa [hmod] using hk.1
  · rw [hu]; simpa using hk.2
  · rw [hu]

/-- C4 witness: a concrete unchanged poll increments the counter without
rendering, and a concrete changed poll resets it with exactly one render
event. -/
theorem battery_poll_stable_increment_and_change_reset_witness :
    ((runningCycle {}
        { lastAvailability := "Available", stableCount := 1,
          deepSleepActive := false, retainedAvail := "" }
        { onUSB := false, needPoll := true, wifiOk := true, time := none,
          tokenOk := true, fetch := some "Available",
          batteryPct := 80 }).1.stableCount = 2
      ∧ (runningCycle {}
          { lastAvailability := "Available", stableCount := 1,
            deepSleepActive := false, retainedAvail := "" }
          { onUSB := false, needPoll := true, wifiOk := true, time := none,
            tokenOk := true, fetch := some "Available",
            batteryPct := 80 }).2.2 = [])
    ∧ runningCycle {}
          { lastAvailability := "Available", stableCount := 1,
            deepSleepActive := false, retainedAvail := "" }
          { onUSB := false, needPoll := true, wifiOk := true, time := none,
            tokenOk := true, fetch := some "Busy", batteryPct := 80 }
        = ({ lastAvailability := "Busy", stableCount := 0,
             deepSleepActive := false, retainedAvail := "" },
           PowerAction.lightSleep, ["Busy"]) := by
  have h := battery_poll_stable_increment_and_change_reset {}
    { lastAvailability := "Available", stableCount := 1,
      deepSleepActive := false, retainedAvail := "" }
    none 80 "Busy" (by decide) (by decide) (by decide) (by decide)
  exact ⟨⟨h.1.1, h.1.2.2⟩, h.2 (by decide)⟩

/-- C3.  On battery with DEEP_SLEEP_THRESHOLD = 3, starting a run of
identical-availability poll cycles from a zero stable counter: two unchanged
cycles only light-sleep, while the third commits the retained state
(deepSleepArmed set, stable counter 3, the availability string truncated for
the retained buffer) and enters deep sleep for pollIntervalSeconds. -/
theorem third_unchanged_battery_poll_enters_deep_sleep
    (g : PodSettings) (t : Option Tm) (pct : Nat) (avail ra : String)
    (hoff : isOfficeHours g t = true) (hpct : BATTERY_SHUTDOWN_PCT < pct)
    (ha : ¬ avail = "") :
    (runCycles g
        { lastAvailability := avail, stableCount := 0,
          deepSleepActive := false, retainedAvail := ra }
        (List.replicate 2
          { onUSB := false, needPoll := true, wifiOk := true, time := t,
            tokenOk := true, fetch := some avail, batteryPct := pct })).2
      = [PowerAction.lightSleep, PowerAction.lightSleep]
    ∧ (runCycles g
        { lastAvailability := avail, stableCount := 0,
          deepSleepActive := false, retainedAvail := ra }
        (List.replicate 3
          { onUSB := false, needPoll := true, wifiOk := true, time := t,
            tokenOk := true, fetch := some avail, batteryPct := pct })).2
      = [PowerAction.lightSleep, PowerAction.lightSleep,
         PowerAction.deepSleep (g.presenceInterval : Int)]
    ∧ (runCycles g
        { lastAvailability := avail, stableCount := 0,
          deepSleepActive := false, retainedAvail := ra }
        (List.replicate 3
          { onUSB := false, needPoll := true, wifiOk := true, time := t,
            tokenOk := true, fetch := some avail, batteryPct := pct })).1
      = { lastAvailability := avail, stableCount := 3,
          deepSleepActive := true, retainedAvail := truncate31 avail } := by
  have h0 := runningCycle_battery_unchanged g
    { lastAvailability := avail, stableCount := 0,
      deepSleepActive := false, retainedAvail := ra } t pct avail hoff hpct
    rfl ha
  have h1 := runningCycle_battery_unchanged g
    { lastAvailability := avail, stableCount := 1,
      deepSleepActive := false, retainedAvail := ra } t pct avail hoff hpct
    rfl ha
  have h2 := runningCycle_battery_unchanged g
    { lastAvailability := avail, stableCount := 2,
      deepSleepActive := false, retainedAvail := ra } t pct avail hoff hpct
    rfl ha
  refine ⟨?_, ?_, ?_⟩ <;>
    simp [runCycles, h0, h1, h2, powerManage, DEEP_SLEEP_THRESHOLD]

/-- C3 witness: with a concrete Busy availability, two unchanged battery
polls do not deep-sleep while the third does, committing the retained
state. -/
theorem third_unchanged_battery_poll_enters_deep_sleep_witness :
    (runCycles {}
        { lastAvailability := "Busy", stableCount := 0,
          deepSleepActive := false, retainedAvail := "" }
        (List.replicate 2
          { onUSB := false, needPoll := true, wifiOk := true, time := none,
            tokenOk := true, fetch := some "Busy", batteryPct := 80 })).2
      = [PowerAction.lightSleep, PowerAction.lightSleep]
    ∧ (runCycles {}
        { lastAvailability := "Busy", stableCount := 0,
          deepSleepActive := false, retainedAvail := "" }
        (List.replicate 3
          { onUSB := false, needPoll := true, wifiOk := true, time := none,
            tokenOk := true, fetch := some "Busy", batteryPct := 80 })).2
      = [PowerAction.lightSleep, PowerAction.lightSleep,
         PowerAction.deepSleep 120]
    ∧ (runCycles {}
        { lastAvailability := "Busy", stableCount := 0,
          deepSleepActive := false, retainedAvail := "" }
        (List.replicate 3
          { onUSB := false, needPoll := true, wifiOk := true, time := none,
            tokenOk := true, fetch := some "Busy", batteryPct := 80 })).1
      = { lastAvailability := "Busy", stableCount := 3,
          deepSleepActive := true, retainedAvail := "Busy" } := by
  have h := third_unchanged_battery_poll_enters_deep_sleep {} none 80 "Busy"
    "" (by decide) (by decide) (by decide)
  exact ⟨h.1, h.2.1, by rw [h.2.2]; decide⟩

/-- C6.  Whenever a RUNNING-state cycle executes with USB power detected, the
stable-cycle counter is reset to 0, no deep sleep (and no battery light
sleep or battery shutdown) occurs, and the device stays awake between
polls. -/
theorem usb_power_never_deep_sleeps (g : PodSettings) (s : RunState)
    (i : CycleInput) (h : i.onUSB = true) :
    (runningCycle g s i).1.stableCount = 0
    ∧ (∀ n, ¬ (runningCycle g s i).2.1 = PowerAction.deepSleep n)
    ∧ ¬ (runningCycle g s i).2.1 = PowerAction.lightSleep
    ∧ ¬ (runningCycle g s i).2.1 = PowerAction.shutdown := by
  obtain ⟨u, np, w, t, tk, f, pct⟩ := i
  simp only at h
  subst h
  cases np <;> cases w <;> cases tk <;> rcases f with _ | av <;>
    simp [runningCycle, powerManage, updateAndDisplayPresence]
  split <;> simp

/-- C6 witness: a concrete USB poll cycle holds the counter at 0 and idles
awake rather than sleeping. -/
theorem usb_power_never_deep_sleeps_witness :
    (runningCycle {}
        { lastAvailability := "Busy", stableCount := 2,
          deepSleepActive := false, retainedAvail := "" }
        { onUSB := true, needPoll := true, wifiOk := true, time := none,
          tokenOk := true, fetch := some "Busy",
          batteryPct := 80 }).1.stableCount = 0
    ∧ ¬ (runningCycle {}
        { lastAvailability := "Busy", stableCount := 2,
          deepSleepActive := false, retainedAvail := "" }
        { onUSB := true, needPoll := true, wifiOk := true, time := none,
          tokenOk := true, fetch := some "Busy",
          batteryPct := 80 }).2.1 = PowerAction.deepSleep 120 := by
  have h := usb_power_never_deep_sleeps {}
    { lastAvailability := "Busy", stableCount := 2,
      deepSleepActive := false, retainedAvail := "" }
    { onUSB := true, needPoll := true, wifiOk := true, time := none,
      tokenOk := true, fetch := some "Busy", batteryPct := 80 } rfl
  exact ⟨h.1, h.2.1 120⟩

/-- C8.  A scheduled battery poll that falls outside the configured office
hours deep-sleeps for the computed seconds-until-window-start instead of the
normal poll interval, clamped below to 60 seconds: the cycle commits the
retained state and sleeps max(computed, 60), and every computed duration
under 60 results in exactly a 60 second sleep. -/
theorem outside_office_hours_battery_deep_sleep
    (g : PodSettings) (s : RunState) (t : Option Tm) (w tk : Bool)
    (f : Option String) (pct : Nat)
    (hoff : isOfficeHours g t = false) :
    runningCycle g s
        { onUSB := false, needPoll := true, wifiOk := w, time := t,
          tokenOk := tk, fetch := f, batteryPct := pct }
      = ({ s with retainedAvail := truncate31 s.lastAvailability,
                  deepSleepActive := true },
         PowerAction.deepSleep
           (if secondsUntilOfficeStart g t < 60 then 60
            else secondsUntilOfficeStart g t), [])
    ∧ (secondsUntilOfficeStart g t < 60 →
        (runningCycle g s
            { onUSB := false, needPoll := true, wifiOk := w, time := t,
              tokenOk := tk, fetch := f, batteryPct := pct }).2.1
          = PowerAction.deepSleep 60) := by
  have h1 : runningCycle g s
      { onUSB := false, needPoll := true, wifiOk := w, time := t,
        tokenOk := tk, fetch := f, batteryPct := pct }
      = ({ s with retainedAvail := truncate31 s.lastAvailability,
                  deepSleepActive := true },
         PowerAction.deepSleep
           (if secondsUntilOfficeStart g t < 60 then 60
            else secondsUntilOfficeStart g t), []) := by
    simp [runningCycle, hoff]
  exact ⟨h1, fun h60 => by rw [h1]; simp [h60]⟩

/-- C8 witness: window 08:00 to 17:00 Monday through Friday, waking Saturday
10:00 with office hours enabled: the computed duration to Monday 08:00 is
201600 seconds and the cycle deep-sleeps exactly that long; the clamp also
fires for a configuration whose computed duration is under 60 seconds. -/
theorem outside_office_hours_battery_deep_sleep_witness :
    secondsUntilOfficeStart
        { presenceInterval := 120, officeHoursEnabled := true,
          officeStartHour := 8, officeStartMin := 0, officeEndHour := 17,
          officeEndMin := 0, officeDays := 0x1F }
        (some { tm_wday := 6, tm_hour := 10, tm_min := 0, tm_sec := 0 })
      = 201600
    ∧ (runningCycle
        { presenceInterval := 120, officeHoursEnabled := true,
          officeStartHour := 8, officeStartMin := 0, officeEndHour := 17,
          officeEndMin := 0, officeDays := 0x1F }
        { lastAvailability := "Busy", stableCount := 1,
          deepSleepActive := false, retainedAvail := "" }
        { onUSB := false, needPoll := true, wifiOk := true,
          time := some { tm_wday := 6, tm_hour := 10, tm_min := 0, tm_sec := 0 },
          tokenOk := true, fetch := some "Busy", batteryPct := 80 }).2.1
      = PowerAction.deepSleep 201600
    ∧ (runningCycle
        { presenceInterval := 120, officeHoursEnabled := true,
          officeStartHour := 8, officeStartMin := 0, officeEndHour := 17,
          officeEndMin := 0, officeDays := 0x1F }
        { lastAvailability := "Busy", stableCount := 1,
          deepSleepActive := false, retainedAvail := "" }
        { onUSB := false, needPoll := true, wifiOk := true,
          time := some { tm_wday := 1, tm_hour := 7, tm_min := 59,
                         tm_sec := 30 },
          tokenOk := true, fetch := some "Busy", batteryPct := 80 }).2.1
      = PowerAction.deepSleep 60 := by
  have hsat := outside_office_hours_battery_deep_sleep
    { presenceInterval := 120, officeHoursEnabled := true,
      officeStartHour := 8, officeStartMin := 0, officeEndHour := 17,
      officeEndMin := 0, officeDays := 0x1F }
    { lastAvailability := "Busy", stableCount := 1,
      deepSleepActive := false, retainedAvail := "" }
    (some { tm_wday := 6, tm_hour := 10, tm_min := 0, tm_sec := 0 })
    true true (some "Busy") 80 (by decide)
  have hmon := outside_office_hours_battery_deep_sleep
    { presenceInterval := 120, officeHoursEnabled := true,
      officeStartHour := 8, officeStartMin := 0, officeEndHour := 17,
      officeEndMin := 0, officeDays := 0x1F }
    { lastAvailability := "Busy", stableCount := 1,
      deepSleepActive := false, retainedAvail := "" }
    (some { tm_wday := 1, tm_hour := 7, tm_min := 59, tm_sec := 30 })
    true true (some "Busy") 80 (by decide)
  refine ⟨by decide, ?_, hmon.2 (by decide)⟩
  rw [hsat.1]
  decide

end TeamsPod
